import Mathlib

set_option maxRecDepth 8000

/-!
Shallow embedding of the core of the bipv-facade-simulation repository:
the `ViewProfile` angular-obstruction profile (src/view_profile.py), the
irradiance-masking `apply` operation, the orchestration layer
(src/surface.py, src/facade.py, src/building.py), and the profile registry.

Real numbers of the Python/numpy code are modelled by `ℚ` (all operations
appearing in the embedded code are field and order operations, exact on
rationals).  Time-indexed `pandas` series aligned on a common index are
modelled as functions `ι → ℚ` from an arbitrary index type.  Fallible
Python code is modelled with `Except PyError`.
-/

/-- Vocabulary of runtime errors.  The repository itself defines no custom
exception classes; `valueError` stands for numpy's `ValueError` (raised by
`np.interp` on malformed sample points) and `attributeError` for Python's
`AttributeError` (raised by a failed attribute lookup).  The constructors
`invalidProfileError` and `configurationError` name the error classes the
specification postulates, so that claims about them can be stated; no
embedded operation ever produces them. -/
inductive PyError where
  | valueError
  | attributeError
  | invalidProfileError
  | configurationError
  deriving DecidableEq

/-- `SurfaceType` enum from src/surface.py (values UNKNOWN=1, FACADE=2,
BALCONY=3; only the tags matter). -/
inductive SurfaceType where
  | UNKNOWN
  | FACADE
  | BALCONY
  deriving DecidableEq

/-- One-dimensional piecewise-linear interpolation with end clamping,
following `numpy.interp(x, xp, fp)` on an ascending sample list: the sample
points are given as `(xp, fp)` pairs; an `x` at or left of the first sample
point yields the first value, an `x` right of the last sample point yields
the last value, and an interior `x` is linearly blended between the two
enclosing sample points. -/
def interpSeg (x : ℚ) : List (ℚ × ℚ) → ℚ
  | [] => 0
  | [p] => p.2
  | p :: q :: rest =>
    if x ≤ p.1 then p.2
    else if x ≤ q.1 then p.2 + (q.2 - p.2) * (x - p.1) / (q.1 - p.1)
    else interpSeg x (q :: rest)

/-- A facade visibility/shading profile (class `ViewProfile`,
src/view_profile.py).  The source stores `self.azimuth = AZIMUTH_360`
(always the fixed grid `np.arange(360)`) and `self.elevation`, one
interpolated elevation per integer azimuth degree; we keep just the
elevation array, as a function on `Fin 360`. -/
structure ViewProfile where
  elevation : Fin 360 → ℚ

/-- Body of `ViewProfile.__init__`:
`self.elevation = np.interp(AZIMUTH_360, azimuth, elevation)`, i.e. the
control points interpolated onto the 360-degree grid.  This is the
unchecked core; `np.interp` validation lives in `ViewProfile.ofPoints`.
Internal calls (mirror, rotate) always pass equal-length 360-sample
arrays, for which the validation never fires. -/
def ViewProfile.ofControlPoints (azimuth elevation : List ℚ) : ViewProfile :=
  ⟨fun a => interpSeg ((a : ℕ) : ℚ) (azimuth.zip elevation)⟩

/-- Checked construction: `np.interp` raises `ValueError` when the sample
point array is empty or when `xp` and `fp` differ in length, which aborts
`ViewProfile.__init__`.  (Both malformed cases raise numpy's `ValueError`;
the check order does not matter for any stated property.) -/
def ViewProfile.ofPoints (azimuth elevation : List ℚ) : Except PyError ViewProfile :=
  if azimuth.length = 0 then .error .valueError
  else if elevation.length ≠ azimuth.length then .error .valueError
  else .ok (ViewProfile.ofControlPoints azimuth elevation)

/-- The stored `(self.azimuth, self.elevation)` sample-point pairs of a
profile: the fixed grid `np.arange(360)` zipped with the elevation array. -/
def gridPairs (e : Fin 360 → ℚ) : List (ℚ × ℚ) :=
  (List.finRange 360).map fun i : Fin 360 => (((i : ℕ) : ℚ), e i)

/-- Return value of `ViewProfile.apply`: per-timestamp blocked elevation,
masked dni, adjusted ghi and the (unchanged) dhi series. -/
structure MaskedIrradiance (ι : Type) where
  blocked_elevation_at_dt : ι → ℚ
  masked_dni : ι → ℚ
  adjusted_ghi : ι → ℚ
  dhi : ι → ℚ

/-- `ViewProfile.apply` (src/view_profile.py lines 64-101):
`blocked_elevation_at_dt = np.interp(solar_azimuth, self.azimuth, self.elevation)`;
`masked_dni = np.where((90 - solar_zenith) > blocked_elevation_at_dt, dni, 0)`;
`adjusted_ghi = np.where(masked_dni == 0, dhi, ghi)`; returns the four
series, the last being the input `dhi` itself. -/
def ViewProfile.apply {ι : Type} (self : ViewProfile)
    (solar_zenith solar_azimuth dni ghi dhi : ι → ℚ) : MaskedIrradiance ι :=
  let blocked_elevation_at_dt : ι → ℚ :=
    fun t => interpSeg (solar_azimuth t) (gridPairs self.elevation)
  let masked_dni : ι → ℚ :=
    fun t => if 90 - solar_zenith t > blocked_elevation_at_dt t then dni t else 0
  let adjusted_ghi : ι → ℚ :=
    fun t => if masked_dni t = 0 then dhi t else ghi t
  ⟨blocked_elevation_at_dt, masked_dni, adjusted_ghi, dhi⟩

/-- Index reversal on the 360-degree grid: `np.flip` puts the value of
index `359 - a` at index `a`. -/
def flipIdx (a : Fin 360) : Fin 360 := ⟨359 - (a : ℕ), by omega⟩

/-- `ViewProfile.mirror` (src/view_profile.py lines 28-29):
`ViewProfile(AZIMUTH_360, np.flip(self.elevation))` — the reversed
elevation array re-interpolated onto the grid by the constructor. -/
def ViewProfile.mirror (self : ViewProfile) : ViewProfile :=
  ViewProfile.ofControlPoints
    ((List.finRange 360).map fun i : Fin 360 => ((i : ℕ) : ℚ))
    ((List.finRange 360).map fun i : Fin 360 => self.elevation (flipIdx i))

/-- Index shift on the grid: position `a` of a profile rotated by `d`
degrees holds the original value at `(a - d) mod 360` (Python `%` on a
positive modulus, i.e. `Int.emod`, always lands in `[0, 360)`). -/
def shiftIdx (d : ℤ) (a : Fin 360) : Fin 360 :=
  ⟨((((a : ℕ) : ℤ) - d) % 360).toNat, by omega⟩

/-- Intermediate value of `ViewProfile.rotate`:
`rotated_azimuth = (self.azimuth + degrees) % 360` paired with
`self.elevation`, before sorting.  The claims quantify over whole numbers
of degrees, so `degrees` is an integer here. -/
def rotPairs (p : ViewProfile) (degrees : ℤ) : List (ℤ × ℚ) :=
  (List.finRange 360).map fun a : Fin 360 =>
    ((((a : ℕ) : ℤ) + degrees) % 360, p.elevation a)

/-- `ViewProfile.rotate` (src/view_profile.py lines 31-47): shift every
azimuth sample by `degrees` modulo 360, reorder both arrays into ascending
azimuth order (`np.argsort(rotated_azimuth)`; the shifted keys are
pairwise distinct, so every comparison sort produces the same reordering,
modelled here with insertion sort on the azimuth key), and hand the sorted
arrays back to the constructor. -/
def ViewProfile.rotate (self : ViewProfile) (degrees : ℤ) : ViewProfile :=
  ViewProfile.ofControlPoints
    ((List.insertionSort (fun u v => u.1 ≤ v.1) (rotPairs self degrees)).map
      fun u : ℤ × ℚ => ((u.1 : ℚ)))
    ((List.insertionSort (fun u v => u.1 ≤ v.1) (rotPairs self degrees)).map Prod.snd)

/-- The ascending form of `rotPairs`: keys `0, …, 359` in order, each key
`i` carrying the original elevation at `(i - degrees) mod 360`.  Proved
below to be exactly what the sort in `rotate` produces. -/
def rotGrid (p : ViewProfile) (degrees : ℤ) : List (ℤ × ℚ) :=
  (List.finRange 360).map fun i : Fin 360 =>
    (((i : ℕ) : ℤ), p.elevation (shiftIdx degrees i))

/-- Rotation of grid indices by `d` degrees as a permutation of `Fin 360`. -/
def shiftEquiv (d : ℤ) : Equiv.Perm (Fin 360) :=
  ⟨shiftIdx d, shiftIdx (-d),
   fun a => by apply Fin.ext; simp only [shiftIdx]; omega,
   fun a => by apply Fin.ext; simp only [shiftIdx]; omega⟩

/-- Static profile `PANORAMIC = ViewProfile([0, 360], [0, 0])`: full sky
view. -/
def PANORAMIC : ViewProfile := ViewProfile.ofControlPoints [0, 360] [0, 0]

/-- Static profile `BACKED = ViewProfile([0, 90, 91, 270, 271, 360],
[0, 0, 90, 90, 0, 0])`: open in front, wall behind. -/
def BACKED : ViewProfile :=
  ViewProfile.ofControlPoints [0, 90, 91, 270, 271, 360] [0, 0, 90, 90, 0, 0]

/-- Static profile `NW_BALCONY` (north-west corner balcony). -/
def NW_BALCONY : ViewProfile :=
  ViewProfile.ofControlPoints [0, 12.36, 12.361, 90, 90.1, 270, 270.1]
    [0, 0, 49.5, 79.639, 90, 90, 0]

/-- Static profile `NE_BALCONY = NW_BALCONY.mirror()`. -/
def NE_BALCONY : ViewProfile := NW_BALCONY.mirror

/-- `profile_from_str` (src/view_profile.py lines 197-206): a `match` over
the four known names.  A Python `match` statement with no matching case
simply falls through, so the function returns `None` for any other name —
it raises nothing, hence the `Except` layer always succeeds. -/
def profile_from_str (s : String) : Except PyError (Option ViewProfile) :=
  if s = "BACKED" then .ok (some BACKED)
  else if s = "PANORAMIC" then .ok (some PANORAMIC)
  else if s = "NE_BALCONY" then .ok (some NE_BALCONY)
  else if s = "NW_BALCONY" then .ok (some NW_BALCONY)
  else .ok none

/-- Python `x or fallback` applied to an `Optional[float]` argument, as in
`tilt = tilt or self.tilt`: both `None` and the falsy float `0` select the
fallback. -/
def pyOrFloat (x : Option ℚ) (fallback : ℚ) : ℚ :=
  match x with
  | none => fallback
  | some v => if v = 0 then fallback else v

/-- Contract of the external plane-of-array transposition
`pvlib.irradiance.get_total_irradiance`: given surface tilt, surface
azimuth, the solar zenith/azimuth series and the three irradiance series,
it yields (at least) the `poa_global` column, a time-indexed series. -/
def TranspositionFn (ι : Type) : Type :=
  ℚ → ℚ → (ι → ℚ) → (ι → ℚ) → (ι → ℚ) → (ι → ℚ) → (ι → ℚ) → (ι → ℚ)

/-- Data of class `Surface` (src/surface.py).  `view_profile` is the
combined profile stored by `__init__`. -/
structure Surface where
  name : String
  type : SurfaceType
  azimuth : ℚ
  tilt : ℚ
  area_per_level : ℚ
  efficiency : ℚ
  view_profile : ViewProfile

/-- Result of `Surface.solve_irradiance` (class `SurfaceResult`): the
`poa_global` column of the transposed irradiance plus the orientation and
tilt actually used. -/
structure SurfaceResult (ι : Type) where
  poa_global : ι → ℚ
  azimuth : ℚ
  tilt : ℚ
  view : ViewProfile

/-- `Surface.solve_irradiance` (src/surface.py lines 54-89):
`tilt = tilt or self.tilt`; `azimuth = azimuth or self.azimuth`; mask the
site irradiance through the surface profile; call the external
transposition with the resolved tilt/azimuth, the solar position and the
masked components (`masked_dni`, `adjusted_ghi`, `dhi`). -/
def Surface.solve_irradiance {ι : Type} (self : Surface) (gti : TranspositionFn ι)
    (solar_zenith solar_azimuth dni ghi dhi : ι → ℚ)
    (tilt azimuth : Option ℚ) : SurfaceResult ι :=
  let t := pyOrFloat tilt self.tilt
  let az := pyOrFloat azimuth self.azimuth
  let masked := self.view_profile.apply solar_zenith solar_azimuth dni ghi dhi
  { poa_global := gti t az solar_zenith solar_azimuth
      masked.masked_dni masked.adjusted_ghi masked.dhi
    azimuth := az
    tilt := t
    view := self.view_profile }

/-- `Surface.find_optimal_tilt` (src/surface.py lines 91-116).  Before the
tilt loop the body evaluates `self.site.GenerateSolarResources()`, but
class `Site` (src/site.py) defines no attribute of that name (its methods
are `get_solar` and `generate_clearsky`), so Python raises
`AttributeError` unconditionally; the loop body would likewise fail on
`self.SolveIrradiance` and `irradiance.Total()` (the defined methods are
`solve_irradiance` and `total`).  The call therefore never reaches the
tilt search and errors for every tilt range. -/
def Surface.find_optimal_tilt {ι : Type} (self : Surface) (gti : TranspositionFn ι)
    (tilt_range : List ℤ) : Except PyError (Option ℤ × List (ℤ × SurfaceResult ι)) :=
  .error .attributeError

/-- Data of class `Facade` (src/facade.py); the near-duplicate of
`Surface` with `orientation` in place of `azimuth`. -/
structure Facade where
  orientation : ℚ
  tilt : ℚ
  facade_profile : ViewProfile

/-- Result of `Facade.solve_irradiance` (class `FacadeResult`). -/
structure FacadeResult (ι : Type) where
  poa_global : ι → ℚ
  orientation : ℚ
  tilt : ℚ

/-- `Facade.solve_irradiance` (src/facade.py lines 37-72), same fallback
`tilt = tilt or self.tilt`; `orientation = orientation or self.orientation`. -/
def Facade.solve_irradiance {ι : Type} (self : Facade) (gti : TranspositionFn ι)
    (solar_zenith solar_azimuth dni ghi dhi : ι → ℚ)
    (tilt orientation : Option ℚ) : FacadeResult ι :=
  let t := pyOrFloat tilt self.tilt
  let o := pyOrFloat orientation self.orientation
  let masked := self.facade_profile.apply solar_zenith solar_azimuth dni ghi dhi
  ⟨gti t o solar_zenith solar_azimuth masked.masked_dni masked.adjusted_ghi masked.dhi,
   o, t⟩

/-- `Facade.find_optimal_tilt` (src/facade.py lines 74-99): with an empty
tilt range the loop never runs and `(None, {})` is returned; with a
non-empty range the first iteration evaluates
`self.site.GenerateSolarResources()` and `self.SolveIrradiance`, neither
of which exists, raising `AttributeError`. -/
def Facade.find_optimal_tilt {ι : Type} (self : Facade) (gti : TranspositionFn ι)
    (tilt_range : List ℤ) : Except PyError (Option ℤ × List (ℤ × FacadeResult ι)) :=
  match tilt_range with
  | [] => .ok (none, [])
  | _ :: _ => .error .attributeError

/-- Data supplied by class `Site` to `Building.calculate_irradiance`
through `site.get_solar()`: the shared time index, the solar-position
series and the weather irradiance series, all aligned. -/
structure Site (ι : Type) where
  index : List ι
  zenith : ι → ℚ
  azimuth : ι → ℚ
  dni : ι → ℚ
  ghi : ι → ℚ
  dhi : ι → ℚ

/-- Data of class `Building` (src/building.py): its site and the surfaces
in insertion order of the `surfaces` dict. -/
structure Building (ι : Type) where
  name : String
  levels : ℕ
  site : Site ι
  surfaces : List Surface

/-- The `poa_global` series computed for one surface inside
`Building.calculate_irradiance`:
`surface.solve_irradiance(position, irradiance)` with both optional
arguments omitted. -/
def surfacePoa {ι : Type} (gti : TranspositionFn ι) (site : Site ι) (s : Surface) : ι → ℚ :=
  (s.solve_irradiance gti site.zenith site.azimuth site.dni site.ghi site.dhi
    none none).poa_global

/-- Captured generation of one surface at one timestamp in
`Building.calculate_irradiance`:
`poa_global * area_per_level * efficiency` (per-surface captured series),
`* levels` (the concat step), `/ 1000` (the kWh conversion of the
long-format column). -/
def generationKWh {ι : Type} (gti : TranspositionFn ι) (site : Site ι)
    (levels : ℕ) (s : Surface) (t : ι) : ℚ :=
  surfacePoa gti site s t * s.area_per_level * s.efficiency * (levels : ℚ) / 1000

/-- `Building.calculate_irradiance` (src/building.py lines 54-83) reshaped
output `self.generated_power`: one long-form record
`(Datetime, SurfaceName, SurfaceType, Generation (kWh))` per timestamp and
surface. -/
def Building.calculate_irradiance {ι : Type} (self : Building ι)
    (gti : TranspositionFn ι) : List (ι × String × SurfaceType × ℚ) :=
  self.site.index.flatMap fun t =>
    self.surfaces.map fun s =>
      (t, s.name, s.type, generationKWh gti self.site self.levels s t)

/-- A concrete profile whose grid elevations at degree 0 and degree 359
differ (10 at azimuth 0 falling linearly to 0 at azimuth 359); used to
separate end clamping from 0/360 wrapping in `np.interp`. -/
def wedgeProfile : ViewProfile := ViewProfile.ofControlPoints [0, 359] [10, 0]

/-- A transposition stub with constant `poa_global = 100` W/m², for the
concrete building scenario. -/
def exampleGti : TranspositionFn Unit := fun _ _ _ _ _ _ _ => fun _ => 100

/-- A one-timestamp site for the concrete building scenario. -/
def exampleSite : Site Unit :=
  ⟨[()], fun _ => 30, fun _ => 45, fun _ => 7, fun _ => 5, fun _ => 3⟩

/-- The surface of the concrete building scenario: `area_per_level = 10`,
`efficiency = 0.2`. -/
def exampleSurface : Surface :=
  { name := "wall"
    type := SurfaceType.FACADE
    azimuth := 0
    tilt := 90
    area_per_level := 10
    efficiency := 0.2
    view_profile := PANORAMIC }

/-- The concrete building scenario: one surface, 5 levels. -/
def exampleBuilding : Building Unit :=
  ⟨"demo", 5, exampleSite, [exampleSurface]⟩

/-- Interpolation at a sample point of a strictly ascending sample list
returns that point's value exactly. -/
theorem interpSeg_mem :
    ∀ (l : List (ℚ × ℚ)), (l.Pairwise fun u v => u.1 < v.1) →
      ∀ z ∈ l, interpSeg z.1 l = z.2 := by
  intro l
  induction l with
  | nil => intro _ z hz; cases hz
  | cons p tl ih =>
    intro hs z hz
    have hhead : ∀ b ∈ tl, p.1 < b.1 := (List.pairwise_cons.mp hs).1
    have htl : tl.Pairwise fun u v => u.1 < v.1 := (List.pairwise_cons.mp hs).2
    rcases List.mem_cons.mp hz with rfl | hztl
    · cases tl with
      | nil => rfl
      | cons q tl2 =>
        show interpSeg z.1 (z :: q :: tl2) = z.2
        simp only [interpSeg]
        rw [if_pos le_rfl]
    · cases tl with
      | nil => cases hztl
      | cons q tl2 =>
        have hpz : p.1 < z.1 := hhead z hztl
        rcases List.mem_cons.mp hztl with rfl | hz2
        · show interpSeg z.1 (p :: z :: tl2) = z.2
          simp only [interpSeg]
          rw [if_neg (not_le.mpr hpz), if_pos le_rfl, mul_div_assoc,
            div_self (sub_ne_zero.mpr hpz.ne'), mul_one]
          ring
        · have hqz : q.1 < z.1 := (List.pairwise_cons.mp htl).1 z hz2
          show interpSeg z.1 (p :: q :: tl2) = z.2
          simp only [interpSeg]
          rw [if_neg (not_le.mpr hpz), if_neg (not_le.mpr hqz)]
          exact ih htl z hztl

/-- Interpolation strictly right of every sample point clamps to the last
value (numpy end behavior; there is no wrap-around). -/
theorem interpSeg_of_forall_lt (x : ℚ) :
    ∀ (l : List (ℚ × ℚ)), l ≠ [] → (∀ q ∈ l, q.1 < x) →
      interpSeg x l = ((l.getLast?).getD (0, 0)).2 := by
  intro l
  induction l with
  | nil => intro h; cases h rfl
  | cons p tl ih =>
    intro _ hall
    cases tl with
    | nil => rfl
    | cons q tl2 =>
      have h1 : p.1 < x := hall p (List.mem_cons_self p _)
      have h2 : q.1 < x := hall q (by simp)
      show interpSeg x (p :: q :: tl2) = _
      simp only [interpSeg]
      rw [if_neg (not_le.mpr h1), if_neg (not_le.mpr h2), List.getLast?_cons_cons]
      exact ih (by simp) fun r hr => hall r (List.mem_cons_of_mem p hr)

/-- Interpolation over sample points whose values are all zero yields zero
everywhere. -/
theorem interpSeg_of_forall_zero (x : ℚ) :
    ∀ (l : List (ℚ × ℚ)), (∀ q ∈ l, q.2 = 0) → interpSeg x l = 0 := by
  intro l
  induction l with
  | nil => intro _; rfl
  | cons p tl ih =>
    intro hall
    have hp : p.2 = 0 := hall p (List.mem_cons_self p _)
    cases tl with
    | nil => exact hp
    | cons q tl2 =>
      have hq : q.2 = 0 := hall q (by simp)
      show interpSeg x (p :: q :: tl2) = 0
      simp only [interpSeg]
      split_ifs
      · exact hp
      · rw [hp, hq]; ring
      · exact ih fun r hr => hall r (List.mem_cons_of_mem p hr)

/-- The stored sample-point list of a profile is strictly ascending in
azimuth. -/
theorem gridPairs_pairwise (e : Fin 360 → ℚ) :
    (gridPairs e).Pairwise fun u v => u.1 < v.1 := by
  unfold gridPairs
  rw [List.pairwise_map]
  refine (List.pairwise_lt_finRange 360).imp ?_
  intro a b h
  have hq : ((a : ℕ) : ℚ) < ((b : ℕ) : ℚ) := by exact_mod_cast Fin.lt_def.mp h
  simpa using hq

/-- Interpolating the stored grid at one of its own integer azimuths
returns the stored elevation. -/
theorem gridPairs_interp (e : Fin 360 → ℚ) (a : Fin 360) :
    interpSeg ((a : ℕ) : ℚ) (gridPairs e) = e a := by
  have hmem : (((a : ℕ) : ℚ), e a) ∈ gridPairs e := by
    unfold gridPairs
    exact List.mem_map_of_mem _ (List.mem_finRange a)
  exact interpSeg_mem (gridPairs e) (gridPairs_pairwise e) _ hmem

/-- Re-interpolating a full 360-sample array onto the same grid (as the
constructor does for every internal call) reproduces the array. -/
theorem interp_map_grid (g : Fin 360 → ℚ) (a : Fin 360) :
    (ViewProfile.ofControlPoints
      ((List.finRange 360).map fun i : Fin 360 => ((i : ℕ) : ℚ))
      ((List.finRange 360).map g)).elevation a = g a := by
  show interpSeg ((a : ℕ) : ℚ)
      ((((List.finRange 360).map fun i : Fin 360 => ((i : ℕ) : ℚ))).zip
        ((List.finRange 360).map g)) = g a
  rw [List.zip_map']
  exact gridPairs_interp g a

/-- Pointwise form of `mirror`: position `a` holds the original elevation
at `359 - a`. -/
theorem mirror_elevation (p : ViewProfile) (a : Fin 360) :
    p.mirror.elevation a = p.elevation (flipIdx a) :=
  interp_map_grid (fun i => p.elevation (flipIdx i)) a

/-- Flipping an index twice is the identity. -/
theorem flipIdx_flipIdx (a : Fin 360) : flipIdx (flipIdx a) = a := by
  apply Fin.ext
  have := a.isLt
  simp only [flipIdx]
  omega

/-- The shifted pair list of `rotate` is a permutation of its ascending
form. -/
theorem rotGrid_perm_rotPairs (p : ViewProfile) (d : ℤ) :
    (rotGrid p d).Perm (rotPairs p d) := by
  have h1 : rotGrid p d = ((List.finRange 360).map (shiftEquiv d)).map
      (fun a : Fin 360 => ((((a : ℕ) : ℤ) + d) % 360, p.elevation a)) := by
    unfold rotGrid
    rw [List.map_map]
    apply List.map_congr_left
    intro i _
    have hlt : (i : ℕ) < 360 := i.isLt
    simp only [Function.comp_apply, shiftEquiv, Equiv.coe_fn_mk]
    refine Prod.ext ?_ rfl
    simp only [shiftIdx]
    omega
  rw [h1]
  exact List.Perm.map _ (Equiv.Perm.map_finRange_perm (shiftEquiv d))

/-- The ascending form of the rotated pair list is strictly sorted on the
azimuth key. -/
theorem rotGrid_sorted (p : ViewProfile) (d : ℤ) :
    (rotGrid p d).Pairwise fun u v => u.1 < v.1 := by
  unfold rotGrid
  rw [List.pairwise_map]
  refine (List.pairwise_lt_finRange 360).imp ?_
  intro a b h
  have hq : ((a : ℕ) : ℤ) < ((b : ℕ) : ℤ) := by exact_mod_cast Fin.lt_def.mp h
  simpa using hq

/-- The shifted azimuth keys `(a + d) mod 360` are pairwise distinct. -/
theorem rotPairs_keys_nodup (p : ViewProfile) (d : ℤ) :
    ((rotPairs p d).map Prod.fst).Nodup := by
  unfold rotPairs
  rw [List.map_map]
  refine List.Nodup.map ?_ (List.nodup_finRange 360)
  intro a b h
  simp only [Function.comp_apply] at h
  have ha : (a : ℕ) < 360 := a.isLt
  have hb : (b : ℕ) < 360 := b.isLt
  apply Fin.ext
  omega

/-- Sorting the rotated pair list by azimuth key yields exactly its
ascending form.  Since the keys are pairwise distinct, the result of
`np.argsort` is forced. -/
theorem rotate_sort_eq (p : ViewProfile) (d : ℤ) :
    List.insertionSort (fun u v : ℤ × ℚ => u.1 ≤ v.1) (rotPairs p d) = rotGrid p d := by
  letI : IsTotal (ℤ × ℚ) (fun u v => u.1 ≤ v.1) := ⟨fun a b => le_total a.1 b.1⟩
  letI : IsTrans (ℤ × ℚ) (fun u v => u.1 ≤ v.1) := ⟨fun a b c h1 h2 => le_trans h1 h2⟩
  letI : IsAntisymm (ℤ × ℚ) (fun u v => u.1 < v.1) :=
    ⟨fun a b h1 h2 => absurd (lt_trans h1 h2) (lt_irrefl a.1)⟩
  have hperm : (List.insertionSort (fun u v : ℤ × ℚ => u.1 ≤ v.1) (rotPairs p d)).Perm
      (rotGrid p d) :=
    (List.perm_insertionSort _ _).trans (rotGrid_perm_rotPairs p d).symm
  have hle : (List.insertionSort (fun u v : ℤ × ℚ => u.1 ≤ v.1) (rotPairs p d)).Pairwise
      fun u v : ℤ × ℚ => u.1 ≤ v.1 := List.sorted_insertionSort _ _
  have hkeys : ((List.insertionSort (fun u v : ℤ × ℚ => u.1 ≤ v.1)
      (rotPairs p d)).map Prod.fst).Nodup := by
    have hp2 := (List.perm_insertionSort (fun u v : ℤ × ℚ => u.1 ≤ v.1)
      (rotPairs p d)).map Prod.fst
    exact hp2.nodup_iff.mpr (rotPairs_keys_nodup p d)
  have hne : (List.insertionSort (fun u v : ℤ × ℚ => u.1 ≤ v.1) (rotPairs p d)).Pairwise
      fun u v : ℤ × ℚ => u.1 ≠ v.1 := List.pairwise_map.mp hkeys
  have hlt : (List.insertionSort (fun u v : ℤ × ℚ => u.1 ≤ v.1) (rotPairs p d)).Pairwise
      fun u v : ℤ × ℚ => u.1 < v.1 :=
    List.Pairwise.imp₂ (fun _ _ h1 h2 => lt_of_le_of_ne h1 h2) hle hne
  exact List.eq_of_perm_of_sorted hperm hlt (rotGrid_sorted p d)

/-- Pointwise form of `rotate`: position `a` of the rotated profile holds
the original elevation at `(a - d) mod 360`. -/
theorem rotate_elevation (p : ViewProfile) (d : ℤ) (a : Fin 360) :
    (p.rotate d).elevation a = p.elevation (shiftIdx d a) := by
  have hkeys : (rotGrid p d).map (fun u : ℤ × ℚ => ((u.1 : ℚ))) =
      (List.finRange 360).map fun i : Fin 360 => ((i : ℕ) : ℚ) := by
    unfold rotGrid
    rw [List.map_map]
    apply List.map_congr_left
    intro i _
    simp
  have hvals : (rotGrid p d).map Prod.snd =
      (List.finRange 360).map fun i : Fin 360 => p.elevation (shiftIdx d i) := by
    unfold rotGrid
    rw [List.map_map]
    rfl
  have h : p.rotate d = ViewProfile.ofControlPoints
      ((List.finRange 360).map fun i : Fin 360 => ((i : ℕ) : ℚ))
      ((List.finRange 360).map fun i : Fin 360 => p.elevation (shiftIdx d i)) := by
    unfold ViewProfile.rotate
    rw [rotate_sort_eq, hkeys, hvals]
  rw [h]
  exact interp_map_grid (fun i => p.elevation (shiftIdx d i)) a

/-- Interpolating the stored grid of an everywhere-zero elevation array
yields zero at every azimuth. -/
theorem gridPairs_interp_zero (e : Fin 360 → ℚ) (hz : ∀ a, e a = 0) (x : ℚ) :
    interpSeg x (gridPairs e) = 0 := by
  apply interpSeg_of_forall_zero
  intro q hq
  unfold gridPairs at hq
  rcases List.mem_map.mp hq with ⟨i, _, rfl⟩
  exact hz i

/-- The `PANORAMIC` profile has elevation zero at every grid degree. -/
theorem PANORAMIC_elevation_zero (a : Fin 360) : PANORAMIC.elevation a = 0 := by
  show interpSeg ((a : ℕ) : ℚ) [((0 : ℚ), (0 : ℚ)), (360, 0)] = 0
  apply interpSeg_of_forall_zero
  intro q hq
  rcases List.mem_cons.mp hq with rfl | hq2
  · rfl
  · rcases List.mem_cons.mp hq2 with rfl | hq3
    · rfl
    · cases hq3

/-- Interpolating the stored grid at any azimuth beyond the last grid
degree clamps to the elevation at degree 359: the grid holds no sample at
360, so `np.interp` does not wrap around to degree 0. -/
theorem gridPairs_interp_clamp (e : Fin 360 → ℚ) (x : ℚ) (h : 359 < x) :
    interpSeg x (gridPairs e) = e 359 := by
  have hlast : (gridPairs e).getLast? = some ((((359 : Fin 360) : ℕ) : ℚ), e 359) := by
    unfold gridPairs
    rw [List.getLast?_map]
    have h2 : (List.finRange 360).getLast? = some (359 : Fin 360) := by decide
    rw [h2]
    rfl
  have hne : gridPairs e ≠ [] := by
    apply List.ne_nil_of_length_pos
    simp [gridPairs]
  have hall : ∀ q ∈ gridPairs e, q.1 < x := by
    intro q hq
    unfold gridPairs at hq
    rcases List.mem_map.mp hq with ⟨i, _, rfl⟩
    have hle : ((i : ℕ) : ℚ) ≤ 359 := by
      have := i.isLt
      exact_mod_cast Nat.le_of_lt_succ this
    exact lt_of_le_of_lt hle h
  rw [interpSeg_of_forall_lt x (gridPairs e) hne hall, hlast]
  rfl

/-- The wedge profile stores elevation 0 at grid degree 359. -/
theorem wedgeProfile_elevation_359 : wedgeProfile.elevation 359 = 0 := by
  have hs : ([((0 : ℚ), (10 : ℚ)), (359, 0)]).Pairwise (fun u v => u.1 < v.1) := by
    norm_num
  have h := interpSeg_mem [((0 : ℚ), (10 : ℚ)), (359, 0)] hs ((359 : ℚ), 0) (by norm_num)
  simpa using h

/-- The wedge profile stores elevation 10 at grid degree 0. -/
theorem wedgeProfile_elevation_0 : wedgeProfile.elevation 0 = 10 := by
  show interpSeg (((0 : Fin 360) : ℕ) : ℚ) [((0 : ℚ), (10 : ℚ)), (359, 0)] = 10
  have hs : ([((0 : ℚ), (10 : ℚ)), (359, 0)]).Pairwise (fun u v => u.1 < v.1) := by
    norm_num
  have h := interpSeg_mem [((0 : ℚ), (10 : ℚ)), (359, 0)] hs ((0 : ℚ), 10) (by norm_num)
  simpa using h

/-- C1: for every profile and aligned input series, `apply` returns, at
each timestamp, masked dni equal to the input dni when the sun elevation
`90 - solar_zenith` strictly exceeds the interpolated blocking elevation
at the solar azimuth and 0 otherwise; adjusted ghi equal to dhi wherever
the masked dni is zero (whether zeroed by blocking or already zero in the
input) and equal to ghi otherwise; and the returned dhi series identical
to the input dhi. -/
theorem apply_pointwise_spec {ι : Type} (p : ViewProfile)
    (solar_zenith solar_azimuth dni ghi dhi : ι → ℚ) (t : ι) :
    (90 - solar_zenith t >
        (p.apply solar_zenith solar_azimuth dni ghi dhi).blocked_elevation_at_dt t →
      (p.apply solar_zenith solar_azimuth dni ghi dhi).masked_dni t = dni t) ∧
    (¬ 90 - solar_zenith t >
        (p.apply solar_zenith solar_azimuth dni ghi dhi).blocked_elevation_at_dt t →
      (p.apply solar_zenith solar_azimuth dni ghi dhi).masked_dni t = 0) ∧
    ((p.apply solar_zenith solar_azimuth dni ghi dhi).masked_dni t = 0 →
      (p.apply solar_zenith solar_azimuth dni ghi dhi).adjusted_ghi t = dhi t) ∧
    ((p.apply solar_zenith solar_azimuth dni ghi dhi).masked_dni t ≠ 0 →
      (p.apply solar_zenith solar_azimuth dni ghi dhi).adjusted_ghi t = ghi t) ∧
    (dni t = 0 →
      (p.apply solar_zenith solar_azimuth dni ghi dhi).adjusted_ghi t = dhi t) ∧
    (p.apply solar_zenith solar_azimuth dni ghi dhi).dhi t = dhi t := by
  refine ⟨fun h => if_pos h, fun h => if_neg h, fun h => ?_, fun h => ?_, fun h => ?_, rfl⟩
  · show (if (p.apply solar_zenith solar_azimuth dni ghi dhi).masked_dni t = 0
        then dhi t else ghi t) = dhi t
    rw [if_pos h]
  · show (if (p.apply solar_zenith solar_azimuth dni ghi dhi).masked_dni t = 0
        then dhi t else ghi t) = ghi t
    rw [if_neg h]
  · have hm : (p.apply solar_zenith solar_azimuth dni ghi dhi).masked_dni t = 0 := by
      show (if 90 - solar_zenith t >
          (p.apply solar_zenith solar_azimuth dni ghi dhi).blocked_elevation_at_dt t
        then dni t else 0) = 0
      split_ifs
      · exact h
      · rfl
    show (if (p.apply solar_zenith solar_azimuth dni ghi dhi).masked_dni t = 0
        then dhi t else ghi t) = dhi t
    rw [if_pos hm]

/-- C1 witness: the theorem evaluated on the panoramic profile at a
single timestamp with zenith 30, azimuth 45, dni 7, ghi 5, dhi 3. -/
theorem apply_pointwise_spec_witness :
    (90 - (30 : ℚ) >
      (PANORAMIC.apply (fun _ : Unit => 30) (fun _ => 45) (fun _ => 7) (fun _ => 5)
        (fun _ => 3)).blocked_elevation_at_dt ()) ∧
    (PANORAMIC.apply (fun _ : Unit => 30) (fun _ => 45) (fun _ => 7) (fun _ => 5)
      (fun _ => 3)).masked_dni () = 7 ∧
    (PANORAMIC.apply (fun _ : Unit => 30) (fun _ => 45) (fun _ => 7) (fun _ => 5)
      (fun _ => 3)).dhi () = 3 := by
  have hb : (PANORAMIC.apply (fun _ : Unit => 30) (fun _ => 45) (fun _ => 7) (fun _ => 5)
      (fun _ => 3)).blocked_elevation_at_dt () = 0 :=
    gridPairs_interp_zero PANORAMIC.elevation PANORAMIC_elevation_zero 45
  have hcond : 90 - (30 : ℚ) >
      (PANORAMIC.apply (fun _ : Unit => 30) (fun _ => 45) (fun _ => 7) (fun _ => 5)
        (fun _ => 3)).blocked_elevation_at_dt () := by
    rw [hb]
    norm_num
  exact ⟨hcond,
    (apply_pointwise_spec PANORAMIC (fun _ : Unit => 30) (fun _ => 45) (fun _ => 7)
      (fun _ => 5) (fun _ => 3) ()).1 hcond,
    (apply_pointwise_spec PANORAMIC (fun _ : Unit => 30) (fun _ => 45) (fun _ => 7)
      (fun _ => 5) (fun _ => 3) ()).2.2.2.2.2⟩

/-- C2: `find_optimal_tilt` never performs the tilt search: the very first
step, `self.site.GenerateSolarResources()`, fails attribute lookup (the
method does not exist; nor do `SolveIrradiance` and `Total`), so the call
raises `AttributeError` for every surface and every tilt range instead of
returning a best tilt with a per-tilt result mapping. -/
theorem find_optimal_tilt_attributeError {ι : Type} (s : Surface)
    (gti : TranspositionFn ι) (tilt_range : List ℤ) :
    s.find_optimal_tilt gti tilt_range = Except.error PyError.attributeError := rfl

/-- C7: rotation by an integral number of degrees shifts the grid:
elevation at azimuth `a` of the rotated profile is the original elevation
at `(a - d) mod 360`; in particular `rotate(90)` of the backed profile at
azimuth 200 equals the original at azimuth 110, and `rotate(0)` is the
identity on every degree. -/
theorem rotate_shift_spec :
    (∀ (p : ViewProfile) (d : ℤ) (a : Fin 360),
      (p.rotate d).elevation a = p.elevation (shiftIdx d a)) ∧
    (BACKED.rotate 90).elevation 200 = BACKED.elevation 110 ∧
    ∀ (p : ViewProfile) (a : Fin 360), (p.rotate 0).elevation a = p.elevation a := by
  refine ⟨rotate_elevation, ?_, ?_⟩
  · rw [rotate_elevation]
    have h : shiftIdx 90 (200 : Fin 360) = (110 : Fin 360) := by decide
    rw [h]
  · intro p a
    rw [rotate_elevation]
    have h : shiftIdx 0 a = a := by
      apply Fin.ext
      simp only [shiftIdx]
      omega
    rw [h]

/-- C8: `mirror` is self-inverse: applying it twice reproduces the
original elevation array exactly at every grid degree. -/
theorem mirror_mirror_spec (p : ViewProfile) (a : Fin 360) :
    p.mirror.mirror.elevation a = p.elevation a := by
  rw [mirror_elevation, mirror_elevation, flipIdx_flipIdx]

/-- C10: passing an explicit tilt of 0 (or azimuth/orientation of 0) to
`solve_irradiance` is indistinguishable from omitting the argument: the
Python `or` fallback treats the falsy 0 as absent and substitutes the
stored default. -/
theorem solve_irradiance_zero_falls_back :
    (∀ q : ℚ, pyOrFloat (some 0) q = q) ∧
    (∀ {ι : Type} (s : Surface) (gti : TranspositionFn ι)
        (zen az dni ghi dhi : ι → ℚ),
      s.solve_irradiance gti zen az dni ghi dhi (some 0) none =
        s.solve_irradiance gti zen az dni ghi dhi none none) ∧
    (∀ {ι : Type} (s : Surface) (gti : TranspositionFn ι)
        (zen az dni ghi dhi : ι → ℚ),
      s.solve_irradiance gti zen az dni ghi dhi none (some 0) =
        s.solve_irradiance gti zen az dni ghi dhi none none) ∧
    (∀ {ι : Type} (f : Facade) (gti : TranspositionFn ι)
        (zen az dni ghi dhi : ι → ℚ),
      f.solve_irradiance gti zen az dni ghi dhi (some 0) none =
        f.solve_irradiance gti zen az dni ghi dhi none none) ∧
    (∀ {ι : Type} (f : Facade) (gti : TranspositionFn ι)
        (zen az dni ghi dhi : ι → ℚ),
      f.solve_irradiance gti zen az dni ghi dhi none (some 0) =
        f.solve_irradiance gti zen az dni ghi dhi none none) := by
  refine ⟨fun q => by simp [pyOrFloat], ?_, ?_, ?_, ?_⟩ <;>
    · intro ι x gti zen az dni ghi dhi
      simp [Surface.solve_irradiance, Facade.solve_irradiance, pyOrFloat]

/-- C3 counterexample: mismatched control-point lists make construction
fail with numpy's `ValueError`, not with an `InvalidProfileError` (no such
class exists anywhere in the repository). -/
theorem ofPoints_error_not_invalidProfileError :
    ViewProfile.ofPoints [0] [] = Except.error PyError.valueError ∧
    ViewProfile.ofPoints [0] [] ≠ Except.error PyError.invalidProfileError := by
  constructor
  · rfl
  · intro hcontra
    rw [show ViewProfile.ofPoints [0] [] = Except.error PyError.valueError from rfl]
      at hcontra
    exact absurd (Except.error.inj hcontra) (by decide)

/-- C3 (amended): profile construction fails at construction time — with
numpy's `ValueError` rather than the nonexistent `InvalidProfileError` —
whenever the azimuth and elevation control-point sequences differ in
length or either is empty. -/
theorem ofPoints_malformed_valueError (azimuth elevation : List ℚ)
    (h : azimuth.length ≠ elevation.length ∨ azimuth = [] ∨ elevation = []) :
    ViewProfile.ofPoints azimuth elevation = Except.error PyError.valueError := by
  unfold ViewProfile.ofPoints
  split_ifs with h1 h2
  · rfl
  · rfl
  · exfalso
    have e2 : elevation.length = azimuth.length := not_ne_iff.mp h2
    rcases h with h | h | h
    · exact h e2.symm
    · exact h1 (by rw [h]; rfl)
    · exact h1 (by rw [← e2, h]; rfl)

/-- C3 witness: the amended theorem evaluated at one azimuth control point
and no elevation control points. -/
theorem ofPoints_malformed_valueError_witness :
    (([(0 : ℚ)].length ≠ ([] : List ℚ).length) ∨ [(0 : ℚ)] = [] ∨ ([] : List ℚ) = []) ∧
    ViewProfile.ofPoints [0] [] = Except.error PyError.valueError :=
  ⟨Or.inl (by decide), ofPoints_malformed_valueError [0] [] (Or.inl (by decide))⟩

/-- C4 counterexample: for the wedge profile at solar azimuth 359.5, the
code's interpolated blocking elevation is the clamped value 0 (the grid
elevation at degree 359), while the claimed 0/360-wrapping linear blend of
the grid elevations at degrees 359 and 0 equals 5. -/
theorem interp_wrap_counterexample :
    interpSeg (719 / 2) (gridPairs wedgeProfile.elevation) = 0 ∧
    wedgeProfile.elevation 359 +
      ((719 : ℚ) / 2 - 359) * (wedgeProfile.elevation 0 - wedgeProfile.elevation 359) = 5 ∧
    (0 : ℚ) ≠ 5 := by
  refine ⟨?_, ?_, by norm_num⟩
  · rw [gridPairs_interp_clamp wedgeProfile.elevation (719 / 2) (by norm_num)]
    exact wedgeProfile_elevation_359
  · rw [wedgeProfile_elevation_359, wedgeProfile_elevation_0]
    norm_num

/-- C4 (amended): the blocking elevation in `apply` is linear
interpolation over the 360-point grid with end clamping, not 0/360
wrapping: for every profile and every solar azimuth strictly between 359
and 360, the interpolated blocking elevation equals the grid elevation at
degree 359. -/
theorem apply_interp_clamps {ι : Type} (p : ViewProfile)
    (solar_zenith solar_azimuth dni ghi dhi : ι → ℚ) (t : ι)
    (h359 : 359 < solar_azimuth t) (h360 : solar_azimuth t < 360) :
    (p.apply solar_zenith solar_azimuth dni ghi dhi).blocked_elevation_at_dt t =
      p.elevation 359 :=
  gridPairs_interp_clamp p.elevation (solar_azimuth t) h359

/-- C4 witness: the amended theorem evaluated on the wedge profile at
solar azimuth 359.5. -/
theorem apply_interp_clamps_witness :
    (359 : ℚ) < 719 / 2 ∧ (719 : ℚ) / 2 < 360 ∧
    (wedgeProfile.apply (fun _ : Unit => 30) (fun _ => 719 / 2) (fun _ => 7)
      (fun _ => 5) (fun _ => 3)).blocked_elevation_at_dt () =
      wedgeProfile.elevation 359 :=
  ⟨by norm_num, by norm_num,
    apply_interp_clamps wedgeProfile (fun _ : Unit => 30) (fun _ => 719 / 2) (fun _ => 7)
      (fun _ => 5) (fun _ => 3) () (by norm_num) (by norm_num)⟩

/-- C5 counterexample: with the all-zero (panoramic) profile, at a
timestamp whose solar elevation 60 is strictly positive, and input series
dni = 0, ghi = 5, dhi = 3, the returned adjusted ghi is 3 — the input ghi
5 is NOT left unchanged for every input irradiance series, because ghi is
replaced by dhi wherever dni is zero. -/
theorem panoramic_noop_counterexample :
    (∀ a : Fin 360, PANORAMIC.elevation a = 0) ∧
    90 - (30 : ℚ) > 0 ∧
    (PANORAMIC.apply (fun _ : Unit => 30) (fun _ => 45) (fun _ => 0) (fun _ => 5)
      (fun _ => 3)).adjusted_ghi () = 3 ∧
    (3 : ℚ) ≠ 5 := by
  refine ⟨PANORAMIC_elevation_zero, by norm_num, ?_, by norm_num⟩
  have hm : (PANORAMIC.apply (fun _ : Unit => 30) (fun _ => 45) (fun _ => 0) (fun _ => 5)
      (fun _ => 3)).masked_dni () = 0 := by
    show (if 90 - (30 : ℚ) >
        (PANORAMIC.apply (fun _ : Unit => 30) (fun _ => 45) (fun _ => 0) (fun _ => 5)
          (fun _ => 3)).blocked_elevation_at_dt ()
      then (0 : ℚ) else 0) = 0
    split_ifs <;> rfl
  show (if (PANORAMIC.apply (fun _ : Unit => 30) (fun _ => 45) (fun _ => 0) (fun _ => 5)
      (fun _ => 3)).masked_dni () = 0 then (3 : ℚ) else 5) = 3
  rw [if_pos hm]

/-- C5 (amended): an all-zero-elevation profile leaves dni unchanged at
every timestamp with strictly positive solar elevation, and leaves ghi
unchanged at those timestamps where additionally the input dni is nonzero;
where the input dni is zero, ghi is replaced by dhi. -/
theorem panoramic_profile_noop_amended {ι : Type} (p : ViewProfile)
    (hz : ∀ a : Fin 360, p.elevation a = 0)
    (solar_zenith solar_azimuth dni ghi dhi : ι → ℚ) (t : ι)
    (helev : 90 - solar_zenith t > 0) :
    (p.apply solar_zenith solar_azimuth dni ghi dhi).masked_dni t = dni t ∧
    (dni t ≠ 0 →
      (p.apply solar_zenith solar_azimuth dni ghi dhi).adjusted_ghi t = ghi t) ∧
    (dni t = 0 →
      (p.apply solar_zenith solar_azimuth dni ghi dhi).adjusted_ghi t = dhi t) := by
  have hb : (p.apply solar_zenith solar_azimuth dni ghi dhi).blocked_elevation_at_dt t = 0 :=
    gridPairs_interp_zero p.elevation hz (solar_azimuth t)
  have hm : (p.apply solar_zenith solar_azimuth dni ghi dhi).masked_dni t = dni t := by
    show (if 90 - solar_zenith t >
        (p.apply solar_zenith solar_azimuth dni ghi dhi).blocked_elevation_at_dt t
      then dni t else 0) = dni t
    rw [hb]
    exact if_pos helev
  refine ⟨hm, fun h => ?_, fun h => ?_⟩
  · show (if (p.apply solar_zenith solar_azimuth dni ghi dhi).masked_dni t = 0
        then dhi t else ghi t) = ghi t
    rw [hm]
    exact if_neg h
  · show (if (p.apply solar_zenith solar_azimuth dni ghi dhi).masked_dni t = 0
        then dhi t else ghi t) = dhi t
    rw [hm]
    exact if_pos h

/-- C5 witness: the amended theorem evaluated on the panoramic profile
with nonzero input dni. -/
theorem panoramic_profile_noop_amended_witness :
    (∀ a : Fin 360, PANORAMIC.elevation a = 0) ∧
    90 - (30 : ℚ) > 0 ∧
    (PANORAMIC.apply (fun _ : Unit => 30) (fun _ => 45) (fun _ => 7) (fun _ => 5)
      (fun _ => 3)).masked_dni () = 7 ∧
    (PANORAMIC.apply (fun _ : Unit => 30) (fun _ => 45) (fun _ => 7) (fun _ => 5)
      (fun _ => 3)).adjusted_ghi () = 5 := by
  have h := panoramic_profile_noop_amended PANORAMIC PANORAMIC_elevation_zero
    (fun _ : Unit => 30) (fun _ => 45) (fun _ => 7) (fun _ => 5) (fun _ => 3) ()
    (by norm_num)
  exact ⟨PANORAMIC_elevation_zero, by norm_num, h.1, h.2.1 (by norm_num)⟩

/-- C6: `calculate_irradiance` emits, for every timestamp of the site
index and every surface, a long-form record keyed by (timestamp, surface
name, surface type) whose captured energy is
`poa_global * area_per_level * efficiency * levels / 1000` kWh; captured
energy is linear in the number of levels; and in the concrete scenario
(`area_per_level = 10`, `efficiency = 0.2`, `levels = 5`,
`poa_global = 100` for one hour) the captured energy is exactly 1 kWh. -/
theorem calculate_irradiance_spec :
    (∀ {ι : Type} (gti : TranspositionFn ι) (b : Building ι) (t : ι) (s : Surface),
      t ∈ b.site.index → s ∈ b.surfaces →
      (t, s.name, s.type, generationKWh gti b.site b.levels s t) ∈
        b.calculate_irradiance gti) ∧
    (∀ {ι : Type} (gti : TranspositionFn ι) (site : Site ι) (s : Surface) (n : ℕ) (t : ι),
      generationKWh gti site n s t = (n : ℚ) * generationKWh gti site 1 s t) ∧
    (∀ (gti : TranspositionFn Unit) (site : Site Unit) (s : Surface),
      surfacePoa gti site s () = 100 → s.area_per_level = 10 → s.efficiency = 0.2 →
      generationKWh gti site 5 s () = 1) := by
  refine ⟨?_, ?_, ?_⟩
  · intro ι gti b t s ht hs
    unfold Building.calculate_irradiance
    exact List.mem_flatMap_of_mem ht (List.mem_map_of_mem _ hs)
  · intro ι gti site s n t
    unfold generationKWh
    push_cast
    ring
  · intro gti site s hpoa harea heff
    unfold generationKWh
    rw [hpoa, harea, heff]
    norm_num

/-- C6 witness: the record of the one-surface, five-level scenario, whose
captured energy for the single hour is 1 kWh. -/
theorem calculate_irradiance_spec_witness :
    ((), "wall", SurfaceType.FACADE,
      generationKWh exampleGti exampleSite 5 exampleSurface ()) ∈
      exampleBuilding.calculate_irradiance exampleGti ∧
    generationKWh exampleGti exampleSite 5 exampleSurface () = 1 := by
  constructor
  · exact calculate_irradiance_spec.1 exampleGti exampleBuilding () exampleSurface
      (List.mem_singleton.mpr rfl) (List.mem_singleton.mpr rfl)
  · exact calculate_irradiance_spec.2.2 exampleGti exampleSite exampleSurface rfl rfl rfl

/-- C9 counterexample: looking up the unknown name GARDEN in the profile
registry silently returns `None`; it does not fail with
`ConfigurationError` (nor with anything else — the Python `match` simply
falls through). -/
theorem profile_from_str_unknown_counterexample :
    profile_from_str "GARDEN" = Except.ok none ∧
    profile_from_str "GARDEN" ≠ Except.error PyError.configurationError := by
  have h : profile_from_str "GARDEN" = Except.ok none := by
    simp [profile_from_str]
  refine ⟨h, ?_⟩
  intro hcontra
  rw [h] at hcontra
  exact Except.noConfusion hcontra

/-- C9 (amended): looking up any name outside the four known identifiers
returns `None` silently — no error is raised at the point of lookup. -/
theorem profile_from_str_unknown_ok_none (s : String)
    (h1 : s ≠ "BACKED") (h2 : s ≠ "PANORAMIC") (h3 : s ≠ "NE_BALCONY")
    (h4 : s ≠ "NW_BALCONY") :
    profile_from_str s = Except.ok none := by
  simp [profile_from_str, h1, h2, h3, h4]

/-- C9 witness: the amended theorem evaluated at the unknown name GARDEN. -/
theorem profile_from_str_unknown_ok_none_witness :
    ("GARDEN" ≠ "BACKED") ∧ profile_from_str "GARDEN" = Except.ok none :=
  ⟨by decide,
    profile_from_str_unknown_ok_none "GARDEN" (by decide) (by decide) (by decide)
      (by decide)⟩
